import Mathlib

/-!
Shallow embedding of the game-state engine of `src/main.py`
(The Mystery Adventure Bot, a text-based adventure game).

Python dictionaries (`self.story.locations`, insertion-ordered, string keys,
all keys distinct) are embedded as association lists with first-match lookup;
Python sets of strings (`PlayerState.visited_locations` …) as `Finset String`
(`set.add` = `Finset.insert`, idempotent); Python `Optional[T]` as `Option T`.
Operations that can raise an uncaught exception (`KeyError` on a dictionary
subscript, `IndexError` on `dialogues[0]`) return `Option`, with `none`
marking the crash.  `str.lower` is embedded as ASCII lowering (the content
strings contain no non-ASCII cased letters that any comparison depends on),
and the substring operator `in` as `py_contains`.
-/

namespace MysteryBot

/-- Python dict lookup `d[k]` / `k in d` (keys are distinct in this program). -/
def dictGet {α : Type} (l : List (String × α)) (k : String) : Option α :=
  match l with
  | [] => none
  | (k', v) :: rest => if k' = k then some v else dictGet rest k

/-- In-place mutation of the value stored under key `k` (Python mutates the
object held by the dict entry). -/
def dictUpd {α : Type} (l : List (String × α)) (k : String) (f : α → α) :
    List (String × α) :=
  l.map (fun p => if p.1 = k then (p.1, f p.2) else p)

/-- `dict.get(k, False)` on the player's `special_flags`. -/
def flagGet (l : List (String × Bool)) (k : String) : Bool :=
  match dictGet l k with
  | some b => b
  | none => false

/-- Python `s.lower()` (ASCII letters; no comparison in the embedded content
depends on non-ASCII case folding).  Written over the character list so that
it evaluates by kernel reduction. -/
def py_lower (s : String) : String := String.mk (s.data.map Char.toLower)

/-- Python `s.upper()` (same remarks as `py_lower`). -/
def py_upper (s : String) : String := String.mk (s.data.map Char.toUpper)

/-- `needle` occurs as a contiguous infix of `hay` (character lists). -/
def charsInfix (needle : List Char) : List Char → Bool
  | [] => needle.isEmpty
  | c :: t => List.isPrefixOf needle (c :: t) || charsInfix needle t

/-- Python substring test `needle in hay` on strings. -/
def py_contains (hay needle : String) : Bool := charsInfix needle.data hay.data

/-- Python truthiness of an `Optional[str]` (`None` and `""` are falsy). -/
def truthyStr : Option String → Bool
  | none => false
  | some s => !s.isEmpty

/-- Python truthiness of an `Optional[List[str]]` (`None` and `[]` falsy). -/
def truthyList : Option (List String) → Bool
  | none => false
  | some l => !l.isEmpty

/-- `class GameState(Enum)` of `src/main.py`. -/
inductive GameState
  | menu
  | playing
  | paused
  | ended
deriving DecidableEq

/-- `class EndingType(Enum)` of `src/main.py`. -/
inductive EndingType
  | good
  | bad
  | secret
deriving DecidableEq

/-- `@dataclass Item` of `src/main.py`. -/
structure Item where
  id : String
  name : String
  description : String
deriving DecidableEq

/-- `@dataclass Dialogue` of `src/main.py`. -/
structure Dialogue where
  text : String
  response : String
  next_action : Option String := none
  requires_item : Option String := none
  unlocks_location : Option String := none
deriving DecidableEq

/-- `@dataclass NPC` of `src/main.py`. -/
structure NPC where
  id : String
  name : String
  location_id : String
  description : String
  dialogues : List Dialogue := []
  met : Bool := false
deriving DecidableEq

/-- `@dataclass Puzzle` of `src/main.py`.  The Python code attaches the hint
cursor `_hint_index` lazily (first `get_puzzle_hint` call sets it to `0`
before reading it); it is embedded as a field initialised to `0`, which is
observationally identical. -/
structure Puzzle where
  id : String
  location_id : String
  question : String
  correct_answer : String
  hints : List String := []
  reward : Option String := none
  solved : Bool := false
  hint_index : Nat := 0
deriving DecidableEq

/-- `@dataclass Location` of `src/main.py`. -/
structure Location where
  id : String
  name : String
  description : String
  locked : Bool := false
  visited : Bool := false
  items : List String := []
  npcs : List String := []
  exits : List (String × String) := []
  puzzle : Option String := none
  unlock_requirements : Option (List String) := none
deriving DecidableEq

/-- `@dataclass PlayerState` of `src/main.py`. -/
structure PlayerState where
  name : String := "Pemain"
  current_location : String := "starting_room"
  inventory : List Item := []
  visited_locations : Finset String := ∅
  completed_puzzles : Finset String := ∅
  unlocked_locations : Finset String := ∅
  special_flags : List (String × Bool) := []
deriving DecidableEq

/-- The four dictionaries built by `StoryData.__init__` /
`StoryData._initialize_story`. -/
structure StoryData where
  locations : List (String × Location)
  npcs : List (String × NPC)
  items : List (String × Item)
  puzzles : List (String × Puzzle)
deriving DecidableEq

/-- `StoryData._create_items` of `src/main.py`. -/
def story_items : List (String × Item) := [
  ("old_key", { id := "old_key", name := "ğŸ”‘ Kunci Tua", description := "Kunci berkarat yang sangat tua" }),
  ("mysterious_note", { id := "mysterious_note", name := "ğŸ“ Catatan Misterius", description := "Catatan dengan pesan samar" }),
  ("crystal_gem", { id := "crystal_gem", name := "ğŸ’ Kristal Bercahaya", description := "Kristal yang bercahaya biru" }),
  ("ancient_coin", { id := "ancient_coin", name := "ğŸª™ Koin Kuno", description := "Koin emas dengan simbol aneh" }),
  ("torch", { id := "torch", name := "ğŸ”¦ Obor", description := "Obor yang masih menyala terang" }),
  ("diary", { id := "diary", name := "ğŸ“– Buku Harian", description := "Buku harian dengan tulisan penting" })
]

/-- `StoryData._create_locations` of `src/main.py`. -/
def story_locations : List (String × Location) := [
  ("starting_room",
    { id := "starting_room",
      name := "ğŸŒ‘ Ruang Gelap",
      description := "Anda terbangun di ruangan gelap dengan peluh dingin. Cahaya redup masuk dari celah. Aroma lembab dan tanah membanjiri udara.",
      locked := false,
      items := ["mysterious_note", "old_key"],
      exits := [("timur", "hallway")] }),
  ("hallway",
    { id := "hallway",
      name := "ğŸšï¸ Koridor Panjang",
      description := "Koridor panjang dengan dinding bata tua. Lukisan-lukisan aneh menghiasi dinding. Beberapa pintu terlihat di sekitar Anda.",
      locked := false,
      items := [],
      exits := [("barat", "starting_room"), ("utara", "library"), ("selatan", "cellar")] }),
  ("library",
    { id := "library",
      name := "ğŸ“š Perpustakaan",
      description := "Perpustakaan luas dengan rak buku mencapai langit-langit. Buku dan kertas berserakan di lantai. Meja besar penuh dengan catatan.",
      locked := false,
      items := ["diary"],
      npcs := ["librarian"],
      exits := [("selatan", "hallway"), ("timur", "study_room")] }),
  ("study_room",
    { id := "study_room",
      name := "âœï¸ Ruang Kerja",
      description := "Ruang kerja dengan meja tulis besar. Pena, tinta, dan kertas berserakan. Di atas meja ada lukisan wanita dengan mata yang misterius.",
      locked := false,
      items := [],
      npcs := ["scholar"],
      exits := [("barat", "library"), ("utara", "tower")],
      puzzle := some "study_puzzle" }),
  ("tower",
    { id := "tower",
      name := "ğŸ—¼ Menara Lonceng",
      description := "Menara tinggi dengan lonceng besar yang tergantung diam. Dari sini Anda bisa melihat seluruh tempat yang tertutup kabut.",
      locked := true,
      items := ["crystal_gem"],
      exits := [("selatan", "study_room"), ("utara", "secret_room")],
      unlock_requirements := some ["study_puzzle"] }),
  ("cellar",
    { id := "cellar",
      name := "ğŸ•·ï¸ Ruang Bawah Tanah",
      description := "Ruang bawah tanah yang basah dan dingin. Botol-botol dan barang penyimpanan tersebar. Suara air menetes dari langit-langit.",
      locked := false,
      items := ["torch"],
      npcs := ["gatekeeper"],
      exits := [("utara", "hallway"), ("barat", "vault")] }),
  ("secret_room",
    { id := "secret_room",
      name := "âœ¨ Kamar Rahasia",
      description := "Ruangan tersembunyi penuh dengan peta kuno dan catatan penelitian. Di tengah ruangan ada altar dengan kristal besar yang bercahaya biru.",
      locked := true,
      items := [],
      npcs := ["spirit"],
      exits := [("selatan", "tower")],
      puzzle := some "vault_puzzle",
      unlock_requirements := some ["tower"] }),
  ("vault",
    { id := "vault",
      name := "ğŸ” Vault Rahasia",
      description := "Pintu besi berat terbuka lebar. Brankas kuno terlihat dengan dokumen penting. Di sini terletak kebenaran tentang siapa Anda.",
      locked := true,
      npcs := ["keeper"],
      exits := [("timur", "cellar")],
      unlock_requirements := some ["vault_puzzle"] })
]

/-- `StoryData._create_npcs` of `src/main.py`. -/
def story_npcs : List (String × NPC) := [
  ("librarian",
    { id := "librarian", name := "ğŸ‘´ Petugas Perpustakaan",
      location_id := "library",
      description := "Pria tua dengan kacamata yang seperti hidup di perpustakaan",
      dialogues := [{ text := "Selamat datang... Anda adalah tamtamu yang pertama", response := "Petugas perpustakaan itu memandang Anda. \x27Cari jawaban di ruang kerja,\x27 katanya." }] }),
  ("scholar",
    { id := "scholar", name := "ğŸ§  Ulama Tua",
      location_id := "study_room",
      description := "Seorang pria yang terlihat seperti peneliti",
      dialogues := [{ text := "Siapa Anda?", response := "\x27Seseorang tertinggal di sini. Pecahkan teka-teki untuk melanjutkan.\x27" }] })
]

/-- `StoryData._create_puzzles` of `src/main.py`. -/
def story_puzzles : List (String × Puzzle) := [
  ("study_puzzle",
    { id := "study_puzzle", location_id := "study_room",
      question := "ğŸ“š Teka-teki pada meja:\n\x27Buku pertama di rak ketiga: A...\x27\n\x27Buku terakhir di rak pertama: B...\x27\n\x27Buku kedua di rak kedua: C...\x27\n\nAmbil huruf pertama tiap judul. Apa akronimnya?\n- Rak 1: \x27Beauty\x27, \x27Cosmos\x27, \x27Dreams\x27\n- Rak 2: \x27Evolution\x27, \x27Foundations\x27, \x27Gravity\x27\n- Rak 3: \x27Ancient\x27, \x27Beyond\x27, \x27Crystals\x27",
      correct_answer := "baf",
      hints := ["ğŸ” Perhatikan urutannya dengan hati-hati",
        "ğŸ“– Ambil huruf pertama dari judul",
        "ğŸ§© Buku pertama rak 3, terakhir rak 1, kedua rak 2",
        "âœ“ Jawabannya 3 huruf"],
      reward := some "tower" }),
  ("vault_puzzle",
    { id := "vault_puzzle", location_id := "secret_room",
      question := "ğŸ” Pada altar, urutan angka tertulis:\n2, 4, 8, 16, ?, ?, ?\n\nIsilah 3 angka berikutnya. Ketikkan angka ketiga.",
      correct_answer := "128",
      hints := ["ğŸ” Setiap angka 2x lipat dari sebelumnya",
        "ğŸ“Š Deret geometri dengan rasio 2",
        "âœï¸ Setelah 16 adalah 32, 64, 128",
        "ğŸ¯ Kamu mencari angka yang ke-6"],
      reward := some "vault" })
]

/-- `StoryData.__init__` / `StoryData._initialize_story`: the four
dictionaries as built at engine startup. -/
def storyData : StoryData :=
  { locations := story_locations, npcs := story_npcs,
    items := story_items, puzzles := story_puzzles }

/-- The mutable fields of `class GameEngine` of `src/main.py`. -/
structure Engine where
  state : GameState
  story : StoryData
  player : PlayerState
  game_over : Bool
  ending_type : Option EndingType
deriving DecidableEq

/-- `GameEngine.__init__`: fresh story and player, then
`unlocked_locations.add("starting_room")` and `.add("hallway")`. -/
def initEngine : Engine :=
  let player0 : PlayerState := {}
  { state := GameState.menu
    story := storyData
    player := { player0 with
      unlocked_locations :=
        insert "hallway" (insert "starting_room" player0.unlocked_locations) }
    game_over := false
    ending_type := none }

/-- `GameEngine.start_game` (`_display_intro` is presentation-only). -/
def start_game (e : Engine) (player_name : String) : Engine :=
  { e with state := GameState.playing,
           player := { e.player with name := player_name } }

/-- `GameEngine.check_location_access`.  The `some (required :: _)` pattern is
Python's `if location.unlock_requirements:` truthiness (`None` and `[]` are
falsy) followed by `required = location.unlock_requirements[0]`. -/
def check_location_access (e : Engine) (location_id : String) :
    Engine × Bool × String :=
  match dictGet e.story.locations location_id with
  | none => (e, false, "Lokasi tidak ditemukan.")
  | some location =>
    if location.locked then
      if location_id ∉ e.player.unlocked_locations then
        match location.unlock_requirements with
        | some (required :: _) =>
          if required ∈ e.player.completed_puzzles ∨
             required ∈ e.player.unlocked_locations then
            ({ e with player := { e.player with
                 unlocked_locations :=
                   insert location_id e.player.unlocked_locations } },
             true, "Lokasi telah terbuka!")
          else
            (e, false, "Lokasi ini terkunci. Anda memerlukan: " ++ required)
        | _ => (e, false, "Lokasi ini terkunci dan tidak dapat dibuka.")
      else (e, true, "")
    else (e, true, "")

/-- `GameEngine.move_to_location`.  `none` marks the `KeyError` crash on
`self.story.locations[self.player.current_location]`. -/
def move_to_location (e : Engine) (direction : String) :
    Option (Engine × Bool × String) :=
  match dictGet e.story.locations e.player.current_location with
  | none => none
  | some current_location =>
    match dictGet current_location.exits direction with
    | none =>
      some (e, false,
        "â¡ï¸ " ++ e.player.name ++ ", arah tersebut tidak tersedia.")
    | some next_location_id =>
      match check_location_access e next_location_id with
      | (e1, can_access, msg) =>
        if !can_access then
          some (e1, false, "ğŸš« " ++ e1.player.name ++ ", " ++ msg)
        else
          some ({ e1 with player := { e1.player with
                    current_location := next_location_id,
                    visited_locations :=
                      insert next_location_id e1.player.visited_locations } },
            true,
            "ğŸš¶ " ++ e1.player.name ++ " berjalan ke " ++ direction ++ "...")

/-- The `for available_item_id in location.items` scan of
`GameEngine.pick_up_item`: the first item whose display name or id contains
the query case-insensitively.  `none` marks the `KeyError` crash when a
listed item id is missing from `story.items`; `some none` means the loop
finished without a match. -/
def find_item_id (story : StoryData) (item_name : String) :
    List String → Option (Option String)
  | [] => some none
  | available_item_id :: rest =>
    match dictGet story.items available_item_id with
    | none => none
    | some item =>
      if py_contains (py_lower item.name) (py_lower item_name) ||
         py_contains (py_lower item.id) (py_lower item_name) then
        some (some available_item_id)
      else find_item_id story item_name rest

/-- `GameEngine.pick_up_item`.  `if !truthyStr found` is Python's
`if not item_id:` (both `None` and `""` are falsy). -/
def pick_up_item (e : Engine) (item_name : String) :
    Option (Engine × Bool × String) :=
  match dictGet e.story.locations e.player.current_location with
  | none => none
  | some location =>
    match find_item_id e.story item_name location.items with
    | none => none
    | some found =>
      if !truthyStr found then
        some (e, false,
          "âŒ " ++ e.player.name ++ ", item tidak ditemukan di sini.")
      else
        match found with
        | none => none
        | some item_id =>
          match dictGet e.story.items item_id with
          | none => none
          | some item =>
            some ({ e with
                player := { e.player with
                  inventory := e.player.inventory ++ [item] },
                story := { e.story with
                  locations := dictUpd e.story.locations
                    e.player.current_location
                    (fun loc => { loc with items := loc.items.erase item_id }) } },
              true,
              "âœ… " ++ e.player.name ++ ", Anda mengambil " ++ item.name ++ "!")

/-- The `for available_npc_id in location.npcs` scan of
`GameEngine.interact_with_npc` (`none` marks the `KeyError` crash when a
listed NPC id is missing from `story.npcs`). -/
def find_npc_id (story : StoryData) (npc_name : String) :
    List String → Option (Option String)
  | [] => some none
  | available_npc_id :: rest =>
    match dictGet story.npcs available_npc_id with
    | none => none
    | some npc =>
      if py_contains (py_lower npc.name) (py_lower npc_name) ||
         py_contains (py_lower npc.id) (py_lower npc_name) then
        some (some available_npc_id)
      else find_npc_id story npc_name rest

/-- `GameEngine._display_npc_dialogue` (`none` marks the `IndexError` crash
on `npc.dialogues[0]` for an NPC with no dialogue lines). -/
def display_npc_dialogue (npc : NPC) : Option String :=
  match npc.dialogues with
  | [] => none
  | d :: _ =>
    some ("\n[" ++ npc.name ++ "]\nğŸ’¬ \"" ++ d.text ++ "\"\n\nğŸ’­ " ++
      d.response ++ "\n")

/-- `GameEngine.interact_with_npc`. -/
def interact_with_npc (e : Engine) (npc_name : String) :
    Option (Engine × Bool × String) :=
  match dictGet e.story.locations e.player.current_location with
  | none => none
  | some location =>
    match find_npc_id e.story npc_name location.npcs with
    | none => none
    | some found =>
      if !truthyStr found then
        some (e, false,
          "ğŸ‘¤ " ++ e.player.name ++ ", NPC tidak ditemukan di lokasi ini.")
      else
        match found with
        | none => none
        | some npc_id =>
          match dictGet e.story.npcs npc_id with
          | none => none
          | some npc =>
            match display_npc_dialogue { npc with met := true } with
            | none => none
            | some msg =>
              some ({ e with story := { e.story with
                  npcs := dictUpd e.story.npcs npc_id
                    (fun n => { n with met := true }) } },
                true, msg)

/-- `GameEngine.solve_puzzle`.  `truthyStr puzzle.reward` is Python's
`if puzzle.reward:`; the inner `none` marks the `KeyError` crash on
`self.story.locations[puzzle.reward]`. -/
def solve_puzzle (e : Engine) (puzzle_id : String) (answer : String) :
    Option (Engine × Bool × String) :=
  match dictGet e.story.puzzles puzzle_id with
  | none =>
    some (e, false, "âŒ " ++ e.player.name ++ ", puzzle tidak ditemukan.")
  | some puzzle =>
    if puzzle.solved then
      some (e, false,
        "âœ… " ++ e.player.name ++ ", Anda sudah menyelesaikan puzzle ini.")
    else if py_lower answer = py_lower puzzle.correct_answer then
      let e1 : Engine := { e with
        story := { e.story with
          puzzles := dictUpd e.story.puzzles puzzle_id
            (fun p => { p with solved := true }) },
        player := { e.player with
          completed_puzzles := insert puzzle_id e.player.completed_puzzles } }
      if truthyStr puzzle.reward then
        match puzzle.reward with
        | none => none
        | some reward =>
          let e2 : Engine := { e1 with player := { e1.player with
            unlocked_locations := insert reward e1.player.unlocked_locations } }
          match dictGet e2.story.locations reward with
          | none => none
          | some reward_loc =>
            some (e2, true,
              "ğŸ‰ " ++ e2.player.name ++ ", BENAR! Lokasi baru terbuka: " ++
                reward_loc.name)
      else
        some (e1, true, "ğŸ‰ " ++ e1.player.name ++ ", BENAR! Puzzle selesai!")
    else
      some (e, false, "âŒ " ++ e.player.name ++ ", jawaban salah. Coba lagi!")

/-- `GameEngine.get_puzzle_hint`.  The lazy `_hint_index` attribute is the
`hint_index` field (initialised to `0`, exactly what the `hasattr` dance
produces). -/
def get_puzzle_hint (e : Engine) (puzzle_id : String) : Engine × String :=
  match dictGet e.story.puzzles puzzle_id with
  | none => (e, "âŒ " ++ e.player.name ++ ", puzzle tidak ditemukan.")
  | some puzzle =>
    if puzzle.hints.isEmpty then
      (e, "â“ " ++ e.player.name ++
        ", tidak ada hint tersedia untuk puzzle ini.")
    else if h : puzzle.hint_index < puzzle.hints.length then
      ({ e with story := { e.story with
           puzzles := dictUpd e.story.puzzles puzzle_id
             (fun p => { p with hint_index := p.hint_index + 1 }) } },
       "ğŸ’¡ " ++ e.player.name ++ ", " ++ puzzle.hints.get ⟨puzzle.hint_index, h⟩)
    else
      (e, "â“ " ++ e.player.name ++
        ", Anda sudah mendapatkan semua hint untuk puzzle ini.")

/-- `"="*70`, the separator of `GameEngine.examine_location`. -/
def sep70 : String := String.mk (List.replicate 70 '=')

/-- The `for item_id in location.items` rendering loop of
`GameEngine.examine_location` (`none` = `KeyError`). -/
def render_items (story : StoryData) : List String → Option String
  | [] => some ""
  | item_id :: rest =>
    match dictGet story.items item_id with
    | none => none
    | some item =>
      (render_items story rest).map
        (fun s => "  â€¢ " ++ item.name ++ "\n" ++ s)

/-- The `for npc_id in location.npcs` rendering loop of
`GameEngine.examine_location` (`none` = `KeyError`). -/
def render_npcs (story : StoryData) : List String → Option String
  | [] => some ""
  | npc_id :: rest =>
    match dictGet story.npcs npc_id with
    | none => none
    | some npc =>
      (render_npcs story rest).map
        (fun s => "  â€¢ " ++ npc.name ++ "\n" ++ s)

/-- The `for direction, target_loc_id in location.exits.items()` rendering
loop of `GameEngine.examine_location` (`none` = `KeyError`). -/
def render_exits (story : StoryData) (unlocked : Finset String) :
    List (String × String) → Option String
  | [] => some ""
  | (direction, target_loc_id) :: rest =>
    match dictGet story.locations target_loc_id with
    | none => none
    | some target_loc =>
      (render_exits story unlocked rest).map (fun s =>
        "  " ++ (if target_loc_id ∈ unlocked then "âœ…" else "âŒ") ++ " " ++
          py_upper direction ++ ": " ++ target_loc.name ++ "\n" ++ s)

/-- `GameEngine.examine_location` (`none` marks a `KeyError` crash on any of
its dictionary subscripts). -/
def examine_location (e : Engine) : Option String :=
  match dictGet e.story.locations e.player.current_location with
  | none => none
  | some location =>
    let result0 := "\n" ++ sep70 ++ "\nğŸ“ LOKASI: " ++ location.name ++
      "\nğŸ‘¤ " ++ e.player.name ++ "\n" ++ sep70 ++ "\n\n" ++
      location.description ++ "\n\n"
    match (if location.items.isEmpty then
             some "ğŸ“¦ Tidak ada item di sini.\n"
           else (render_items e.story location.items).map
             (fun s => "ğŸ“¦ Item yang tersedia:\n" ++ s)) with
    | none => none
    | some items_part =>
      match (if location.npcs.isEmpty then some ""
             else (render_npcs e.story location.npcs).map
               (fun s => "ğŸ‘¥ Orang yang ada di sini:\n" ++ s)) with
      | none => none
      | some npcs_part =>
        match (if location.exits.isEmpty then some ""
               else (render_exits e.story e.player.unlocked_locations
                 location.exits).map
                   (fun s => "ğŸšª Arah yang tersedia:\n" ++ s)) with
        | none => none
        | some exits_part =>
          some (result0 ++ items_part ++ "\n" ++ npcs_part ++ "\n" ++
            exits_part)

/-- `GameEngine.check_ending`: returns the engine after the call (it writes
`self.ending_type` when an ending matches) together with the returned value.
The Python local `location_id = self.player.current_location` is inlined. -/
def check_ending (e : Engine) : Engine × Option EndingType :=
  if e.player.current_location = "hidden_chamber" ∧
     "crystal_gem" ∈ e.player.inventory.map Item.id then
    ({ e with ending_type := some EndingType.secret }, some EndingType.secret)
  else if e.player.current_location = "secret_vault" ∧
     3 ≤ e.player.completed_puzzles.card then
    ({ e with ending_type := some EndingType.good }, some EndingType.good)
  else if e.player.visited_locations.card < 3 ∧
     flagGet e.player.special_flags "lost_too_long" = true then
    ({ e with ending_type := some EndingType.bad }, some EndingType.bad)
  else (e, none)

/-- Modelled from the spec: the referential-integrity validation of the
Content Model (spec §3 invariant, §7 `ContentIntegrityError`) — every
identifier referenced by location exits, item lists, NPC lists, attached
puzzles, unlock requirements (a puzzle or location id) and puzzle rewards
must exist in the Content Model.  `src/main.py` contains no such validation
anywhere; this definition follows the spec's words so that the property can
be evaluated on the story the engine actually constructs. -/
def content_refs_ok (s : StoryData) : Bool :=
  (s.locations.all (fun p =>
    p.2.exits.all (fun ex => (dictGet s.locations ex.2).isSome) &&
    p.2.items.all (fun i => (dictGet s.items i).isSome) &&
    p.2.npcs.all (fun n => (dictGet s.npcs n).isSome) &&
    (match p.2.puzzle with
     | none => true
     | some pz => (dictGet s.puzzles pz).isSome) &&
    (match p.2.unlock_requirements with
     | none => true
     | some reqs => reqs.all (fun r =>
         (dictGet s.puzzles r).isSome || (dictGet s.locations r).isSome)))) &&
  s.puzzles.all (fun p =>
    match p.2.reward with
    | none => true
    | some r => (dictGet s.locations r).isSome)

/-- Modelled from the spec (§4.5): ending evaluation as a function of
`PlayerState` alone, in the spec's fixed order — Secret, then Good, then
Bad, first match wins, otherwise `none`. -/
def spec_ending_order (p : PlayerState) : Option EndingType :=
  if p.current_location = "hidden_chamber" ∧
     "crystal_gem" ∈ p.inventory.map Item.id then some EndingType.secret
  else if p.current_location = "secret_vault" ∧
     3 ≤ p.completed_puzzles.card then some EndingType.good
  else if p.visited_locations.card < 3 ∧
     flagGet p.special_flags "lost_too_long" = true then some EndingType.bad
  else none

/-- Every entry of the items dictionary stores an `Item` whose `id` field is
its own key (true of the story built by `StoryData._create_items`). -/
def items_keyed (s : StoryData) : Bool :=
  s.items.all (fun p => p.2.id == p.1)

/-- One player-facing engine operation performed on the running engine:
exactly the state-affecting operations of `GameEngine` (`check_inventory`,
`examine_location` and `get_game_status` are renderers that read the state
and return a string, mutating nothing).  An operation that crashes (`none`)
produces no successor state. -/
inductive Step : Engine → Engine → Prop
  | start (e : Engine) (player_name : String) :
      Step e (start_game e player_name)
  | access (e : Engine) (location_id : String) :
      Step e (check_location_access e location_id).1
  | move (e e' : Engine) (direction : String) (ok : Bool) (msg : String) :
      move_to_location e direction = some (e', ok, msg) → Step e e'
  | pick (e e' : Engine) (item_name : String) (ok : Bool) (msg : String) :
      pick_up_item e item_name = some (e', ok, msg) → Step e e'
  | talk (e e' : Engine) (npc_name : String) (ok : Bool) (msg : String) :
      interact_with_npc e npc_name = some (e', ok, msg) → Step e e'
  | solve (e e' : Engine) (puzzle_id answer : String) (ok : Bool)
      (msg : String) :
      solve_puzzle e puzzle_id answer = some (e', ok, msg) → Step e e'
  | hint (e : Engine) (puzzle_id : String) :
      Step e (get_puzzle_hint e puzzle_id).1
  | ending (e : Engine) :
      Step e (check_ending e).1

/-- The game states reachable from a freshly constructed `GameEngine` by any
sequence of engine operations. -/
inductive Reachable : Engine → Prop
  | init : Reachable initEngine
  | step {e e' : Engine} : Reachable e → Step e e' → Reachable e'

/-- Invariant carried by every reachable engine state: the location table
keeps the keys built at startup, the player stands in one of them, and no
operation ever writes a special flag. -/
def EngineInv (e : Engine) : Prop :=
  e.story.locations.map Prod.fst = storyData.locations.map Prod.fst ∧
  e.player.current_location ∈ e.story.locations.map Prod.fst ∧
  e.player.special_flags = []

/-- `n` successive `get_puzzle_hint` calls, collecting the returned messages
in call order. -/
def run_hints (e : Engine) (puzzle_id : String) : Nat → Engine × List String
  | 0 => (e, [])
  | n + 1 =>
    ((run_hints (get_puzzle_hint e puzzle_id).1 puzzle_id n).1,
     (get_puzzle_hint e puzzle_id).2 ::
       (run_hints (get_puzzle_hint e puzzle_id).1 puzzle_id n).2)

/-- A sequence of `pick_up_item` calls; a crash (`none`) aborts the run. -/
def apply_pick_ups (e : Engine) : List String → Option Engine
  | [] => some e
  | q :: qs =>
    match pick_up_item e q with
    | none => none
    | some (e', _, _) => apply_pick_ups e' qs

/-- All item ids sitting in location item lists, with multiplicity. -/
def placed_items : List (String × Location) → List String
  | [] => []
  | p :: rest => p.2.items ++ placed_items rest

/-- Number of copies of item id `x` across every location's item list plus
the player's inventory — the quantity claim C8 says is conserved. -/
def count_item (e : Engine) (x : String) : Nat :=
  (placed_items e.story.locations).count x +
    (e.player.inventory.map Item.id).count x

/-- A state satisfying the Secret-ending predicate: the player stands in
`"hidden_chamber"` holding the crystal (used to exhibit the `ending_type`
write of `check_ending`). -/
def e_hidden : Engine :=
  { initEngine with player := { initEngine.player with
      current_location := "hidden_chamber",
      inventory := [{ id := "crystal_gem", name := "ğŸ’ Kristal Bercahaya",
                      description := "Kristal yang bercahaya biru" }] } }

/-- The engine with the study-room puzzle already marked solved. -/
def e_solved : Engine :=
  { initEngine with story := { storyData with
      puzzles := dictUpd storyData.puzzles "study_puzzle"
        (fun p => { p with solved := true }) } }

/-- The engine with the study-room puzzle recorded as completed by the
player (the tower's unlock requirement). -/
def e_completed : Engine :=
  { initEngine with player := { initEngine.player with
      completed_puzzles := insert "study_puzzle"
        initEngine.player.completed_puzzles } }

/-- Placeholder used only to project values out of an `Option` in witness
statements. -/
def noLocation : Location := { id := "", name := "", description := "" }

/-- Placeholder puzzle for the same purpose. -/
def noPuzzle : Puzzle :=
  { id := "", location_id := "", question := "", correct_answer := "" }

/-! ## Theorems -/

/-- C1.  Content referential integrity FAILS on the code: the Content Model
built by `StoryData` references the NPC ids `"gatekeeper"` (location
`cellar`), `"spirit"` (`secret_room`) and `"keeper"` (`vault`) while its NPC
dictionary defines only `"librarian"` and `"scholar"`, and `src/main.py`
performs no construction-time validation at all (there is no
`ContentIntegrityError` anywhere); the dangling ids instead surface as
`KeyError` crashes at use time. -/
theorem content_integrity_violated :
    content_refs_ok storyData = false ∧
    (dictGet storyData.locations "cellar").map Location.npcs =
      some ["gatekeeper"] ∧
    (dictGet storyData.locations "secret_room").map Location.npcs =
      some ["spirit"] ∧
    (dictGet storyData.locations "vault").map Location.npcs =
      some ["keeper"] ∧
    dictGet storyData.npcs "gatekeeper" = none ∧
    dictGet storyData.npcs "spirit" = none ∧
    dictGet storyData.npcs "keeper" = none :=
  ⟨rfl, rfl, rfl, rfl, rfl, rfl, rfl⟩

/-- C2.  Totality FAILS on the code: from a fresh engine the two moves
`timur` then `selatan` succeed and put the player in `cellar` — a location
the player can occupy — where both `examine_location` and
`interact_with_npc "gatekeeper"` hit the `KeyError` on
`self.story.npcs["gatekeeper"]` (embedded as `none`) instead of returning a
result or typed failure. -/
theorem engine_ops_crash_in_cellar :
    ((move_to_location initEngine "timur").bind (fun r1 =>
      (move_to_location r1.1 "selatan").map (fun r2 =>
        (r1.2.1, r2.2.1, r2.1.player.current_location,
         examine_location r2.1, interact_with_npc r2.1 "gatekeeper")))) =
      some (true, true, "cellar", none, none) :=
  rfl

/-- C5.  Ending evaluation is deterministic with the fixed priority Secret,
then Good, then Bad, first match wins, `none` when no predicate holds: the
value returned by `check_ending` coincides with the spec-ordered evaluator
`spec_ending_order` on every engine state.  (In particular a state
satisfying both the Secret and the Good condition — which is vacuous here,
as the two conditions pin `current_location` to two different identifiers —
yields Secret, and a state satisfying no condition yields `none`.) -/
theorem check_ending_priority_order (e : Engine) :
    (check_ending e).2 = spec_ending_order e.player := by
  unfold check_ending spec_ending_order
  split_ifs <;> rfl

/-- C4, counterexample.  `check_ending` is NOT side-effect-free on the
engine: at the concrete state `e_hidden` (player in `"hidden_chamber"`
holding the crystal) the call rewrites the engine field `ending_type` from
`none` to `some secret`, so the claim "calling check_ending leaves … all
engine fields unchanged" is false. -/
theorem check_ending_not_side_effect_free :
    (check_ending e_hidden).1 ≠ e_hidden ∧
    e_hidden.ending_type = none ∧
    (check_ending e_hidden).1.ending_type = some EndingType.secret := by
  refine ⟨fun h => ?_, rfl, rfl⟩
  have h2 := congrArg Engine.ending_type h
  rw [show (check_ending e_hidden).1.ending_type = some EndingType.secret
        from rfl] at h2
  exact Option.noConfusion h2

/-- C4, amended.  `check_ending` leaves the `PlayerState`, the Content
Model, and every other engine field unchanged EXCEPT `ending_type`, which it
overwrites with the ending it returns whenever one matches (and leaves alone
otherwise); its returned value depends only on the `PlayerState` (it equals
`spec_ending_order e.player`). -/
theorem check_ending_frame_amended (e : Engine) :
    (check_ending e).1.player = e.player ∧
    (check_ending e).1.story = e.story ∧
    (check_ending e).1.state = e.state ∧
    (check_ending e).1.game_over = e.game_over ∧
    (check_ending e).1.ending_type = ((check_ending e).2 <|> e.ending_type) ∧
    (check_ending e).2 = spec_ending_order e.player := by
  unfold check_ending spec_ending_order
  split_ifs <;> exact ⟨rfl, rfl, rfl, rfl, rfl, rfl⟩

/-- C6.  Access check on a locked, not-yet-unlocked location whose
unlock-requirement list is non-empty: access is granted iff the FIRST
requirement is among the player's completed puzzles or unlocked locations;
on grant the location id is inserted into unlocked-locations (the check
mutates state) and the message is "Lokasi telah terbuka!"; on denial the
state is exactly unchanged and the failure message carries the requirement
identifier.  The conclusions never mention `rest`, so only the first
requirement is ever consulted. -/
theorem locked_access_first_requirement (e : Engine) (location_id : String)
    (location : Location) (required : String) (rest : List String)
    (hloc : dictGet e.story.locations location_id = some location)
    (hlocked : location.locked = true)
    (hnot : location_id ∉ e.player.unlocked_locations)
    (hreq : location.unlock_requirements = some (required :: rest)) :
    ((check_location_access e location_id).2.1 = true ↔
      (required ∈ e.player.completed_puzzles ∨
       required ∈ e.player.unlocked_locations)) ∧
    ((check_location_access e location_id).2.1 = true →
      (check_location_access e location_id).1 =
        { e with player := { e.player with
            unlocked_locations :=
              insert location_id e.player.unlocked_locations } } ∧
      (check_location_access e location_id).2.2 = "Lokasi telah terbuka!") ∧
    ((check_location_access e location_id).2.1 = false →
      (check_location_access e location_id).1 = e ∧
      (check_location_access e location_id).2.2 =
        "Lokasi ini terkunci. Anda memerlukan: " ++ required) := by
  have hacc : check_location_access e location_id =
      (if required ∈ e.player.completed_puzzles ∨
          required ∈ e.player.unlocked_locations then
        ({ e with player := { e.player with
             unlocked_locations :=
               insert location_id e.player.unlocked_locations } },
         true, "Lokasi telah terbuka!")
      else
        (e, false, "Lokasi ini terkunci. Anda memerlukan: " ++ required)) := by
    simp only [check_location_access, hloc, hlocked, hreq, if_true, hnot,
      not_false_iff]
  by_cases hmem : required ∈ e.player.completed_puzzles ∨
      required ∈ e.player.unlocked_locations
  · rw [hacc, if_pos hmem]
    exact ⟨by simpa using hmem, fun _ => ⟨rfl, rfl⟩, fun hfalse => by simp at hfalse⟩
  · rw [hacc, if_neg hmem]
    exact ⟨by simpa using hmem, fun htrue => by simp at htrue,
      fun _ => ⟨rfl, rfl⟩⟩

/-- Witness for C6: at `e_completed` (fresh game with `study_puzzle`
completed), accessing the locked `tower` is granted and inserts `"tower"`
into unlocked-locations. -/
theorem locked_access_first_requirement_witness :
    (check_location_access e_completed "tower").2.1 = true ∧
    (check_location_access e_completed "tower").1.player.unlocked_locations =
      insert "tower" e_completed.player.unlocked_locations := by
  have h := locked_access_first_requirement e_completed "tower"
    ((dictGet e_completed.story.locations "tower").getD noLocation)
    "study_puzzle" [] rfl rfl (by decide) rfl
  have hg : (check_location_access e_completed "tower").2.1 = true :=
    h.1.mpr (Or.inl (by decide))
  exact ⟨hg, by rw [(h.2.1 hg).1]⟩

/-- C9.  Re-solving is rejected: when the addressed puzzle's `solved` flag
is set, `solve_puzzle` fails with the already-solved message and returns the
engine unchanged, for EVERY submitted answer (correct or not). -/
theorem resolve_rejected (e : Engine) (puzzle_id : String) (answer : String)
    (puzzle : Puzzle)
    (hpz : dictGet e.story.puzzles puzzle_id = some puzzle)
    (hsolved : puzzle.solved = true) :
    solve_puzzle e puzzle_id answer =
      some (e, false,
        "âœ… " ++ e.player.name ++ ", Anda sudah menyelesaikan puzzle ini.") := by
  simp only [solve_puzzle, hpz, hsolved, if_true]

/-- Witness for C9: with `study_puzzle` already solved, submitting its
CORRECT answer `"baf"` still fails and leaves the engine unchanged. -/
theorem resolve_rejected_witness :
    solve_puzzle e_solved "study_puzzle" "baf" =
      some (e_solved, false,
        "âœ… Pemain, Anda sudah menyelesaikan puzzle ini.") := by
  exact resolve_rejected e_solved "study_puzzle" "baf"
    ((dictGet e_solved.story.puzzles "study_puzzle").getD noPuzzle) rfl rfl

/-! ### Frame lemmas for the engine operations -/

theorem dictUpd_map_fst {α : Type} (l : List (String × α)) (k : String)
    (f : α → α) : (dictUpd l k f).map Prod.fst = l.map Prod.fst := by
  induction l with
  | nil => rfl
  | cons p rest ih =>
    simp only [dictUpd, List.map_cons] at ih ⊢
    by_cases h : p.1 = k <;> simp [h, ih]

theorem mem_keys_isSome {α : Type} (l : List (String × α)) (k : String) :
    k ∈ l.map Prod.fst ↔ (dictGet l k).isSome := by
  induction l with
  | nil => simp [dictGet]
  | cons p rest ih =>
    simp only [dictGet, List.map_cons, List.mem_cons]
    by_cases h : p.1 = k
    · simp [h]
    · simp only [h, if_false]
      constructor
      · rintro (rfl | hk)
        · exact absurd rfl h
        · exact ih.mp hk
      · intro hk
        exact Or.inr (ih.mpr hk)

theorem access_cases (e : Engine) (lid : String) :
    (check_location_access e lid).1 = e ∨
    (check_location_access e lid).1 =
      { e with player := { e.player with
          unlocked_locations := insert lid e.player.unlocked_locations } } := by
  unfold check_location_access
  repeat' split
  all_goals first
    | exact Or.inl rfl
    | exact Or.inr rfl

theorem access_granted_isSome (e : Engine) (lid : String)
    (h : (check_location_access e lid).2.1 = true) :
    (dictGet e.story.locations lid).isSome := by
  cases hd : dictGet e.story.locations lid with
  | none =>
    exfalso
    unfold check_location_access at h
    rw [hd] at h
    simp at h
  | some loc => simp

theorem hint_fst (e : Engine) (pid : String) :
    (get_puzzle_hint e pid).1.story.locations = e.story.locations ∧
    (get_puzzle_hint e pid).1.player = e.player := by
  unfold get_puzzle_hint
  repeat' split
  all_goals exact ⟨rfl, rfl⟩

theorem ending_fst (e : Engine) :
    (check_ending e).1.story = e.story ∧
    (check_ending e).1.player = e.player := by
  unfold check_ending
  split_ifs
  all_goals exact ⟨rfl, rfl⟩

theorem pick_fst (e e' : Engine) (q : String) (ok : Bool) (m : String)
    (h : pick_up_item e q = some (e', ok, m)) :
    e'.story.locations.map Prod.fst = e.story.locations.map Prod.fst ∧
    e'.story.items = e.story.items ∧
    e'.story.puzzles = e.story.puzzles ∧
    e'.player.current_location = e.player.current_location ∧
    e'.player.special_flags = e.player.special_flags ∧
    e'.player.unlocked_locations = e.player.unlocked_locations ∧
    e'.player.name = e.player.name := by
  unfold pick_up_item at h
  repeat' split at h
  all_goals first
    | exact Option.noConfusion h
    | (injection h with h1;
       obtain ⟨he, -⟩ := Prod.mk.inj h1;
       subst he;
       first
         | exact ⟨rfl, rfl, rfl, rfl, rfl, rfl, rfl⟩
         | (refine ⟨?_, rfl, rfl, rfl, rfl, rfl, rfl⟩;
            dsimp only;
            exact dictUpd_map_fst _ _ _))

theorem talk_fst (e e' : Engine) (q : String) (ok : Bool) (m : String)
    (h : interact_with_npc e q = some (e', ok, m)) :
    e'.story.locations = e.story.locations ∧
    e'.player = e.player := by
  unfold interact_with_npc at h
  repeat' split at h
  all_goals first
    | exact Option.noConfusion h
    | (injection h with h1;
       obtain ⟨he, -⟩ := Prod.mk.inj h1;
       subst he;
       exact ⟨rfl, rfl⟩)

theorem solve_fst (e e' : Engine) (pid ans : String) (ok : Bool) (m : String)
    (h : solve_puzzle e pid ans = some (e', ok, m)) :
    e'.story.locations = e.story.locations ∧
    e'.player.current_location = e.player.current_location ∧
    e'.player.special_flags = e.player.special_flags ∧
    (e'.player.unlocked_locations = e.player.unlocked_locations ∨
      ∃ r, e'.player.unlocked_locations =
        insert r e.player.unlocked_locations) := by
  unfold solve_puzzle at h
  dsimp only at h
  repeat' split at h
  all_goals first
    | exact Option.noConfusion h
    | (injection h with h1;
       obtain ⟨he, -⟩ := Prod.mk.inj h1;
       subst he;
       first
         | exact ⟨rfl, rfl, rfl, Or.inl rfl⟩
         | exact ⟨rfl, rfl, rfl, Or.inr ⟨_, rfl⟩⟩)

theorem move_fst (e e' : Engine) (d : String) (ok : Bool) (m : String)
    (h : move_to_location e d = some (e', ok, m)) :
    e'.story = e.story ∧
    e'.player.special_flags = e.player.special_flags ∧
    (∀ L, L ∈ e.player.unlocked_locations →
      L ∈ e'.player.unlocked_locations) ∧
    (e'.player.current_location = e.player.current_location ∨
      (dictGet e.story.locations e'.player.current_location).isSome) := by
  unfold move_to_location at h
  split at h
  · exact absurd h (by simp)
  · split at h
    · simp only [Option.some.injEq, Prod.mk.injEq] at h
      obtain ⟨he, -, -⟩ := h
      subst he
      exact ⟨rfl, rfl, fun L hL => hL, Or.inl rfl⟩
    · rename_i cur hcur nid hnid
      split at h
      · rename_i e1 can msg1 hca
        split at h
        · rename_i hdeny
          simp only [Option.some.injEq, Prod.mk.injEq] at h
          obtain ⟨he, -, -⟩ := h
          subst he
          have h1 : e1 = (check_location_access e nid).1 := by rw [hca]
          subst h1
          rcases access_cases e nid with hc | hc <;> rw [hc]
          · exact ⟨rfl, rfl, fun L hL => hL, Or.inl rfl⟩
          · exact ⟨rfl, rfl, fun L hL => Finset.mem_insert_of_mem hL,
              Or.inl rfl⟩
        · rename_i hgrant
          simp only [Option.some.injEq, Prod.mk.injEq] at h
          obtain ⟨he, -, -⟩ := h
          subst he
          have h1 : e1 = (check_location_access e nid).1 := by rw [hca]
          have h2 : can = (check_location_access e nid).2.1 := by rw [hca]
          have hcan : (check_location_access e nid).2.1 = true := by
            rw [← h2]
            simpa using hgrant
          have hsome := access_granted_isSome e nid hcan
          subst h1
          rcases access_cases e nid with hc | hc <;> rw [hc]
          · exact ⟨rfl, rfl, fun L hL => hL, Or.inr hsome⟩
          · exact ⟨rfl, rfl, fun L hL => Finset.mem_insert_of_mem hL,
              Or.inr hsome⟩

theorem step_inv {e e' : Engine} (hs : Step e e') (ih : EngineInv e) :
    EngineInv e' := by
  obtain ⟨hkeys, hcur, hflags⟩ := ih
  cases hs with
  | start n => exact ⟨hkeys, hcur, hflags⟩
  | access lid =>
    rcases access_cases e lid with hc | hc <;> rw [hc]
    · exact ⟨hkeys, hcur, hflags⟩
    · exact ⟨hkeys, hcur, hflags⟩
  | move e2 d ok msg hmv =>
    obtain ⟨hstory, hfl, -, hcv⟩ := move_fst e e' d ok msg hmv
    refine ⟨by rw [hstory]; exact hkeys, ?_, by rw [hfl]; exact hflags⟩
    rcases hcv with hsame | hsome
    · rw [hstory, hsame]; exact hcur
    · rw [hstory]
      exact (mem_keys_isSome _ _).mpr hsome
  | pick e2 q ok msg hpk =>
    obtain ⟨hkeq, -, -, hcl, hfl, -, -⟩ := pick_fst e e' q ok msg hpk
    exact ⟨by rw [hkeq]; exact hkeys, by rw [hkeq, hcl]; exact hcur,
      by rw [hfl]; exact hflags⟩
  | talk e2 q ok msg htk =>
    obtain ⟨hleq, hpeq⟩ := talk_fst e e' q ok msg htk
    exact ⟨by rw [hleq]; exact hkeys, by rw [hleq, hpeq]; exact hcur,
      by rw [hpeq]; exact hflags⟩
  | solve e2 pid ans ok msg hsv =>
    obtain ⟨hleq, hcl, hfl, -⟩ := solve_fst e e' pid ans ok msg hsv
    exact ⟨by rw [hleq]; exact hkeys, by rw [hleq, hcl]; exact hcur,
      by rw [hfl]; exact hflags⟩
  | hint pid =>
    obtain ⟨hleq, hpeq⟩ := hint_fst e pid
    exact ⟨by rw [hleq]; exact hkeys, by rw [hleq, hpeq]; exact hcur,
      by rw [hpeq]; exact hflags⟩
  | ending =>
    obtain ⟨hseq, hpeq⟩ := ending_fst e
    exact ⟨by rw [hseq]; exact hkeys, by rw [hseq, hpeq]; exact hcur,
      by rw [hpeq]; exact hflags⟩

theorem reachable_inv {e : Engine} (h : Reachable e) : EngineInv e := by
  induction h with
  | init => exact ⟨rfl, by decide, rfl⟩
  | step _ hs ih => exact step_inv hs ih

theorem inv_no_ending (e : Engine) (h : EngineInv e) :
    (check_ending e).2 = none := by
  obtain ⟨hkeys, hcur, hflags⟩ := h
  rw [hkeys] at hcur
  have hlist : ∀ x ∈ storyData.locations.map Prod.fst,
      x ≠ "hidden_chamber" ∧ x ≠ "secret_vault" := by decide
  obtain ⟨h1, h2⟩ := hlist _ hcur
  unfold check_ending
  rw [if_neg (fun hcon => h1 hcon.1), if_neg (fun hcon => h2 hcon.1),
    if_neg (fun hcon => ?_)]
  have hfg : flagGet e.player.special_flags "lost_too_long" = false := by
    rw [hflags]; rfl
  rw [hfg] at hcon
  exact Bool.false_ne_true hcon.2

/-- C3.  No ending is ever reachable: the two location identifiers
`check_ending` tests, `"hidden_chamber"` and `"secret_vault"`, are not
defined in the Content Model (and hence never reachable through any exit),
and no engine operation ever writes the `"lost_too_long"` special flag, so
`check_ending` returns `none` in every state reachable from a fresh
`GameEngine` by any sequence of engine operations. -/
theorem no_ending_reachable :
    dictGet storyData.locations "hidden_chamber" = none ∧
    dictGet storyData.locations "secret_vault" = none ∧
    ∀ e : Engine, Reachable e → (check_ending e).2 = none :=
  ⟨rfl, rfl, fun e h => inv_no_ending e (reachable_inv h)⟩

/-- Witness for C3: at the fresh engine itself, `check_ending` is `none`. -/
theorem no_ending_reachable_witness : (check_ending initEngine).2 = none :=
  no_ending_reachable.2.2 initEngine Reachable.init

/-- C7.  Unlocking is monotonic: every engine operation (start, access
check, move, pick-up, talk, solve, hint, ending check) preserves membership
in the player's unlocked-locations set — no operation ever removes an
element or re-locks a location. -/
theorem unlocked_monotone {e e' : Engine} (L : String) (hs : Step e e')
    (hL : L ∈ e.player.unlocked_locations) :
    L ∈ e'.player.unlocked_locations := by
  cases hs with
  | start n => exact hL
  | access lid =>
    rcases access_cases e lid with hc | hc <;> rw [hc]
    · exact hL
    · exact Finset.mem_insert_of_mem hL
  | move e2 d ok msg hmv => exact (move_fst e e' d ok msg hmv).2.2.1 L hL
  | pick e2 q ok msg hpk =>
    rw [(pick_fst e e' q ok msg hpk).2.2.2.2.2.1]
    exact hL
  | talk e2 q ok msg htk =>
    rw [(talk_fst e e' q ok msg htk).2]
    exact hL
  | solve e2 pid ans ok msg hsv =>
    rcases (solve_fst e e' pid ans ok msg hsv).2.2.2 with hu | ⟨r, hu⟩ <;>
      rw [hu]
    · exact hL
    · exact Finset.mem_insert_of_mem hL
  | hint pid =>
    rw [(hint_fst e pid).2]
    exact hL
  | ending =>
    rw [(ending_fst e).2]
    exact hL

/-- Witness for C7: `"hallway"` is unlocked in the fresh engine and stays
unlocked across a `get_puzzle_hint` step. -/
theorem unlocked_monotone_witness :
    "hallway" ∈
      (get_puzzle_hint initEngine "study_puzzle").1.player.unlocked_locations :=
  unlocked_monotone "hallway" (Step.hint initEngine "study_puzzle")
    (by decide)

theorem dictGet_dictUpd_self {α : Type} (l : List (String × α)) (k : String)
    (f : α → α) : dictGet (dictUpd l k f) k = (dictGet l k).map f := by
  induction l with
  | nil => rfl
  | cons p rest ih =>
    obtain ⟨a, b⟩ := p
    by_cases h : a = k
    · subst h
      rw [show dictUpd ((a, b) :: rest) a f = (a, f b) :: dictUpd rest a f
        from by simp [dictUpd]]
      simp [dictGet]
    · rw [show dictUpd ((a, b) :: rest) k f = (a, b) :: dictUpd rest k f
        from by simp [dictUpd, h]]
      simp only [dictGet]
      rw [if_neg h, if_neg h]
      exact ih

theorem hint_step_lt (e : Engine) (pid : String) (puzzle : Puzzle)
    (hpz : dictGet e.story.puzzles pid = some puzzle)
    (hne : puzzle.hints ≠ [])
    (hlt : puzzle.hint_index < puzzle.hints.length) :
    get_puzzle_hint e pid =
      ({ e with story := { e.story with
           puzzles := dictUpd e.story.puzzles pid
             (fun p => { p with hint_index := p.hint_index + 1 }) } },
       "ğŸ’¡ " ++ e.player.name ++ ", " ++
         puzzle.hints.get ⟨puzzle.hint_index, hlt⟩) := by
  have hemp : puzzle.hints.isEmpty = false := by simpa using hne
  simp only [get_puzzle_hint, hpz, hemp, Bool.false_eq_true, if_false]
  rw [dif_pos hlt]

theorem hint_step_ge (e : Engine) (pid : String) (puzzle : Puzzle)
    (hpz : dictGet e.story.puzzles pid = some puzzle)
    (hne : puzzle.hints ≠ [])
    (hge : ¬ puzzle.hint_index < puzzle.hints.length) :
    get_puzzle_hint e pid =
      (e, "â“ " ++ e.player.name ++
        ", Anda sudah mendapatkan semua hint untuk puzzle ini.") := by
  have hemp : puzzle.hints.isEmpty = false := by simpa using hne
  simp only [get_puzzle_hint, hpz, hemp, Bool.false_eq_true, if_false]
  rw [dif_neg hge]

theorem run_hints_spec (n : Nat) (e : Engine) (pid : String) (puzzle : Puzzle)
    (hpz : dictGet e.story.puzzles pid = some puzzle)
    (hne : puzzle.hints ≠ [])
    (hle : puzzle.hint_index ≤ puzzle.hints.length) :
    (run_hints e pid n).2 =
      ((puzzle.hints.drop puzzle.hint_index).take n).map
        (fun s => "ğŸ’¡ " ++ e.player.name ++ ", " ++ s) ++
      List.replicate (n - (puzzle.hints.length - puzzle.hint_index))
        ("â“ " ++ e.player.name ++
          ", Anda sudah mendapatkan semua hint untuk puzzle ini.") ∧
    dictGet (run_hints e pid n).1.story.puzzles pid =
      some { puzzle with
        hint_index := min (puzzle.hint_index + n) puzzle.hints.length } ∧
    (run_hints e pid n).1.player = e.player := by
  induction n generalizing e puzzle with
  | zero =>
    refine ⟨by simp [run_hints, Nat.zero_sub], ?_, rfl⟩
    rw [show min (puzzle.hint_index + 0) puzzle.hints.length =
      puzzle.hint_index from by omega]
    exact hpz
  | succ n ih =>
    by_cases hlt : puzzle.hint_index < puzzle.hints.length
    · have hstep := hint_step_lt e pid puzzle hpz hne hlt
      have hpz' : dictGet ({ e with story := { e.story with
            puzzles := dictUpd e.story.puzzles pid
              (fun p => { p with hint_index := p.hint_index + 1 }) } } :
            Engine).story.puzzles pid =
          some { puzzle with hint_index := puzzle.hint_index + 1 } := by
        dsimp only
        rw [dictGet_dictUpd_self, hpz]
        rfl
      obtain ⟨ihm, ihs, ihp⟩ := ih _ _ hpz' hne hlt
      refine ⟨?_, ?_, ?_⟩
      · simp only [run_hints]
        rw [hstep]
        dsimp only
        rw [ihm]
        dsimp only
        rw [List.drop_eq_getElem_cons hlt, List.take_succ_cons, List.map_cons,
          show (n + 1) - (puzzle.hints.length - puzzle.hint_index) =
            n - (puzzle.hints.length - (puzzle.hint_index + 1)) from by omega]
        simp [List.cons_append]
      · simp only [run_hints]
        rw [hstep]
        dsimp only
        rw [ihs]
        dsimp only
        rw [show puzzle.hint_index + 1 + n = puzzle.hint_index + (n + 1)
          from by omega]
      · simp only [run_hints]
        rw [hstep]
        dsimp only
        rw [ihp]
    · have hstep := hint_step_ge e pid puzzle hpz hne hlt
      obtain ⟨ihm, ihs, ihp⟩ := ih e puzzle hpz hne hle
      refine ⟨?_, ?_, ?_⟩
      · simp only [run_hints]
        rw [hstep]
        dsimp only
        rw [ihm, show puzzle.hint_index = puzzle.hints.length from by omega]
        simp [List.drop_length, List.replicate_succ]
      · simp only [run_hints]
        rw [hstep]
        dsimp only
        rw [ihs, show min (puzzle.hint_index + n) puzzle.hints.length =
          min (puzzle.hint_index + (n + 1)) puzzle.hints.length from by omega]
      · simp only [run_hints]
        rw [hstep]
        dsimp only
        exact ihp

/-- C10.  Hint cursor clamps: for a puzzle with `N ≥ 1` hints and fresh
cursor, a run of `N + k` consecutive `get_puzzle_hint` calls (`k ≥ 1`)
returns exactly the `N` stored hints in order, one per call, followed by `k`
all-hints-exhausted messages, and the cursor ends at exactly `N` — it
advances by one per revealed hint, clamps at the list length, and never
wraps or resets. -/
theorem hint_cursor_clamps (e : Engine) (pid : String) (puzzle : Puzzle)
    (k : Nat)
    (hpz : dictGet e.story.puzzles pid = some puzzle)
    (hidx : puzzle.hint_index = 0)
    (hlen : 1 ≤ puzzle.hints.length)
    (hk : 1 ≤ k) :
    (run_hints e pid (puzzle.hints.length + k)).2 =
      puzzle.hints.map (fun s => "ğŸ’¡ " ++ e.player.name ++ ", " ++ s) ++
      List.replicate k
        ("â“ " ++ e.player.name ++
          ", Anda sudah mendapatkan semua hint untuk puzzle ini.") ∧
    dictGet (run_hints e pid
        (puzzle.hints.length + k)).1.story.puzzles pid =
      some { puzzle with hint_index := puzzle.hints.length } := by
  have hne : puzzle.hints ≠ [] := List.ne_nil_of_length_pos hlen
  have hle : puzzle.hint_index ≤ puzzle.hints.length := by omega
  obtain ⟨hm, hs, -⟩ :=
    run_hints_spec (puzzle.hints.length + k) e pid puzzle hpz hne hle
  constructor
  · rw [hm, hidx, List.drop_zero,
      List.take_of_length_le (by omega : puzzle.hints.length ≤
        puzzle.hints.length + k),
      show (puzzle.hints.length + k) - (puzzle.hints.length - 0) = k
        from by omega]
  · rw [hs, hidx,
      show min (0 + (puzzle.hints.length + k)) puzzle.hints.length =
        puzzle.hints.length from by omega]

/-- Witness for C10: `study_puzzle` has exactly 4 hints; 5 consecutive hint
requests on a fresh engine yield the 4 hints in stored order then the
exhausted message. -/
theorem hint_cursor_clamps_witness :
    (run_hints initEngine "study_puzzle" 5).2 =
      ["ğŸ’¡ Pemain, ğŸ” Perhatikan urutannya dengan hati-hati",
       "ğŸ’¡ Pemain, ğŸ“– Ambil huruf pertama dari judul",
       "ğŸ’¡ Pemain, ğŸ§© Buku pertama rak 3, terakhir rak 1, kedua rak 2",
       "ğŸ’¡ Pemain, âœ“ Jawabannya 3 huruf",
       "â“ Pemain, Anda sudah mendapatkan semua hint untuk puzzle ini."] := by
  have h := hint_cursor_clamps initEngine "study_puzzle"
    ((dictGet initEngine.story.puzzles "study_puzzle").getD noPuzzle) 1
    rfl rfl (by decide) (by decide)
  exact h.1

theorem find_item_id_mem (story : StoryData) (q : String) (l : List String)
    (i : String) (h : find_item_id story q l = some (some i)) : i ∈ l := by
  induction l with
  | nil => simp [find_item_id] at h
  | cons y rest ih =>
    simp only [find_item_id] at h
    split at h
    · exact Option.noConfusion h
    · split at h
      · injection h with h1
        injection h1 with h2
        exact h2 ▸ List.mem_cons_self y rest
      · exact List.mem_cons_of_mem _ (ih h)

theorem keyed_dictGet (l : List (String × Item))
    (hk : l.all (fun p => p.2.id == p.1) = true)
    (k : String) (it : Item) (h : dictGet l k = some it) : it.id = k := by
  induction l with
  | nil => exact Option.noConfusion h
  | cons p rest ih =>
    simp only [List.all_cons, Bool.and_eq_true, beq_iff_eq] at hk
    simp only [dictGet] at h
    split at h
    · rename_i heq
      injection h with h1
      rw [← h1, hk.1, heq]
    · exact ih hk.2 h

theorem dictUpd_not_mem {α : Type} (l : List (String × α)) (k : String)
    (f : α → α) (h : k ∉ l.map Prod.fst) : dictUpd l k f = l := by
  induction l with
  | nil => rfl
  | cons p rest ih =>
    simp only [List.map_cons, List.mem_cons] at h
    push_neg at h
    simp only [dictUpd, List.map_cons]
    rw [if_neg (fun hc => h.1 hc.symm)]
    have := ih h.2
    simp only [dictUpd] at this
    rw [this]

theorem count_le_placed (locs : List (String × Location)) (cur : String)
    (loc : Location) (x : String)
    (hget : dictGet locs cur = some loc) :
    loc.items.count x ≤ (placed_items locs).count x := by
  induction locs with
  | nil => exact Option.noConfusion hget
  | cons p rest ih =>
    simp only [dictGet] at hget
    simp only [placed_items, List.count_append]
    split at hget
    · injection hget with h1
      rw [h1]
      exact Nat.le_add_right _ _
    · exact Nat.le_add_left _ _ |>.trans' (ih hget) |>.trans
        (Nat.le_refl _)

theorem count_placed_dictUpd_erase (locs : List (String × Location))
    (cur item_id : String) (loc : Location) (x : String)
    (hnd : (locs.map Prod.fst).Nodup)
    (hget : dictGet locs cur = some loc)
    (hmem : item_id ∈ loc.items) :
    (placed_items (dictUpd locs cur
        (fun l => { l with items := l.items.erase item_id }))).count x =
      (placed_items locs).count x - (if item_id == x then 1 else 0) := by
  induction locs with
  | nil => exact Option.noConfusion hget
  | cons p rest ih =>
    obtain ⟨a, b⟩ := p
    simp only [List.map_cons, List.nodup_cons] at hnd
    simp only [dictGet] at hget
    by_cases h : a = cur
    · rw [if_pos h] at hget
      have hbl : b = loc := by injection hget
      rw [← hbl] at hmem
      rw [show dictUpd ((a, b) :: rest) cur
            (fun l => { l with items := l.items.erase item_id }) =
          (a, { b with items := b.items.erase item_id }) ::
            dictUpd rest cur
              (fun l => { l with items := l.items.erase item_id })
        from by simp only [dictUpd, List.map_cons]; rw [if_pos h]]
      rw [dictUpd_not_mem rest cur _ (h ▸ hnd.1)]
      simp only [placed_items, List.count_append]
      rw [List.count_erase]
      have hone : (if (item_id == x) = true then 1 else 0) ≤
          b.items.count x := by
        by_cases hx : item_id = x
        · subst hx
          rw [if_pos (by simp)]
          exact List.one_le_count_iff.mpr hmem
        · rw [if_neg (by simp [hx])]
          exact Nat.zero_le _
      omega
    · rw [if_neg h] at hget
      rw [show dictUpd ((a, b) :: rest) cur
            (fun l => { l with items := l.items.erase item_id }) =
          (a, b) :: dictUpd rest cur
            (fun l => { l with items := l.items.erase item_id })
        from by simp only [dictUpd, List.map_cons]; rw [if_neg h]]
      simp only [placed_items, List.count_append]
      rw [ih hnd.2 hget]
      have hone : (if (item_id == x) = true then 1 else 0) ≤
          (placed_items rest).count x := by
        by_cases hx : item_id = x
        · subst hx
          rw [if_pos (by simp)]
          exact (List.one_le_count_iff.mpr hmem).trans
            (count_le_placed rest cur loc item_id hget)
        · rw [if_neg (by simp [hx])]
          exact Nat.zero_le _
      omega

theorem pick_fail (e e' : Engine) (q msg : String)
    (h : pick_up_item e q = some (e', false, msg)) : e' = e := by
  unfold pick_up_item at h
  repeat' split at h
  all_goals first
    | exact Option.noConfusion h
    | (injection h with h1;
       obtain ⟨he, hrest⟩ := Prod.mk.inj h1;
       first
         | exact he.symm
         | exact absurd (Prod.mk.inj hrest).1 (by simp))

theorem pick_success (e e' : Engine) (q msg : String)
    (h : pick_up_item e q = some (e', true, msg)) :
    ∃ location item_id item,
      dictGet e.story.locations e.player.current_location = some location ∧
      item_id ∈ location.items ∧
      dictGet e.story.items item_id = some item ∧
      e'.player.inventory = e.player.inventory ++ [item] ∧
      e'.story.locations = dictUpd e.story.locations
        e.player.current_location
        (fun loc => { loc with items := loc.items.erase item_id }) := by
  unfold pick_up_item at h
  split at h
  · exact Option.noConfusion h
  · rename_i location hloc
    split at h
    · exact Option.noConfusion h
    · rename_i found hfound
      split at h
      · injection h with h1
        exact absurd (Prod.mk.inj (Prod.mk.inj h1).2).1 (by simp)
      · split at h
        · exact Option.noConfusion h
        · rename_i item_id htruthy
          split at h
          · exact Option.noConfusion h
          · rename_i item hit
            injection h with h1
            obtain ⟨he, -⟩ := Prod.mk.inj h1
            subst he
            refine ⟨location, item_id, item, hloc, ?_, hit, rfl, rfl⟩
            exact find_item_id_mem e.story q location.items item_id hfound

theorem pick_conserves (e e' : Engine) (q msg : String) (ok : Bool)
    (hnd : (e.story.locations.map Prod.fst).Nodup)
    (hkey : items_keyed e.story = true)
    (h : pick_up_item e q = some (e', ok, msg)) (x : String) :
    count_item e' x = count_item e x := by
  cases ok with
  | false => rw [pick_fail e e' q msg h]
  | true =>
    obtain ⟨loc, iid, item, hloc, hmem, hit, hinv, hlocs⟩ :=
      pick_success e e' q msg h
    have hid : item.id = iid := keyed_dictGet e.story.items hkey iid item hit
    unfold count_item
    rw [hinv, hlocs, List.map_append, List.count_append,
      count_placed_dictUpd_erase e.story.locations e.player.current_location
        iid loc x hnd hloc hmem]
    have hge : (if (iid == x) = true then 1 else 0) ≤
        (placed_items e.story.locations).count x := by
      by_cases hx : iid = x
      · subst hx
        rw [if_pos (by simp)]
        exact (List.one_le_count_iff.mpr hmem).trans
          (count_le_placed e.story.locations e.player.current_location
            loc iid hloc)
      · rw [if_neg (by simp [hx])]
        exact Nat.zero_le _
    have hsingle : ([item].map Item.id).count x =
        (if (iid == x) = true then 1 else 0) := by
      have hmap : [item].map Item.id = [iid] := by
        rw [List.map_cons, List.map_nil, hid]
      rw [hmap, List.count_singleton']
      by_cases hx : iid = x
      · rw [if_pos hx, if_pos (by simp [hx])]
      · rw [if_neg hx, if_neg (by simp [hx])]
    rw [hsingle]
    omega

theorem pickups_conserve (qs : List String) : ∀ (e e' : Engine),
    (e.story.locations.map Prod.fst).Nodup →
    items_keyed e.story = true →
    apply_pick_ups e qs = some e' →
    ∀ x, count_item e' x = count_item e x := by
  induction qs with
  | nil =>
    intro e e' _ _ h x
    simp only [apply_pick_ups, Option.some.injEq] at h
    rw [h]
  | cons q rest ih =>
    intro e e' hnd hkey h x
    simp only [apply_pick_ups] at h
    split at h
    · exact Option.noConfusion h
    · rename_i e1 ok msg hr
      have hf := pick_fst e e1 q ok msg hr
      have hnd1 : (e1.story.locations.map Prod.fst).Nodup := hf.1 ▸ hnd
      have hkey1 : items_keyed e1.story = true := by
        unfold items_keyed
        rw [hf.2.1]
        exact hkey
      rw [ih e1 e' hnd1 hkey1 h x,
        pick_conserves e e1 q msg ok hnd hkey hr x]

/-- C8.  Item conservation.  (1) A failed pick-up changes nothing.  (2) A
successful pick-up matches an item id present in the current location's item
list, removes exactly its first occurrence from that list
(`List.erase`) and appends the item exactly once to the inventory.
(3)–(4) Per-id item counts over all location lists plus the inventory are
conserved by every single pick-up and by every sequence of pick-ups (under
the startup invariants: distinct location keys and id-keyed item table).
(5) From the fresh engine, after any sequence of pick-ups every item id
still occurs at most once across all locations plus the inventory — never
duplicated, never in two places. -/
theorem pickup_conservation :
    (∀ (e e' : Engine) (q msg : String),
      pick_up_item e q = some (e', false, msg) → e' = e) ∧
    (∀ (e e' : Engine) (q msg : String),
      pick_up_item e q = some (e', true, msg) →
      ∃ location item_id item,
        dictGet e.story.locations e.player.current_location =
          some location ∧
        item_id ∈ location.items ∧
        dictGet e.story.items item_id = some item ∧
        e'.player.inventory = e.player.inventory ++ [item] ∧
        e'.story.locations = dictUpd e.story.locations
          e.player.current_location
          (fun loc => { loc with items := loc.items.erase item_id })) ∧
    (∀ (e e' : Engine) (q msg : String) (ok : Bool),
      (e.story.locations.map Prod.fst).Nodup →
      items_keyed e.story = true →
      pick_up_item e q = some (e', ok, msg) →
      ∀ x, count_item e' x = count_item e x) ∧
    (∀ (e e' : Engine) (qs : List String),
      (e.story.locations.map Prod.fst).Nodup →
      items_keyed e.story = true →
      apply_pick_ups e qs = some e' →
      ∀ x, count_item e' x = count_item e x) ∧
    (∀ (e' : Engine) (qs : List String),
      apply_pick_ups initEngine qs = some e' →
      ∀ x, count_item e' x ≤ 1) := by
  refine ⟨pick_fail, pick_success, pick_conserves,
    fun e e' qs hnd hkey h x => pickups_conserve qs e e' hnd hkey h x, ?_⟩
  intro e' qs h x
  rw [pickups_conserve qs initEngine e' (by decide) (by decide) h x]
  have hpl : placed_items initEngine.story.locations =
      ["mysterious_note", "old_key", "diary", "crystal_gem", "torch"] := rfl
  unfold count_item
  rw [hpl]
  have hn : (["mysterious_note", "old_key", "diary", "crystal_gem",
      "torch"] : List String).Nodup := by decide
  simpa using List.nodup_iff_count_le_one.mp hn x

/-- Witness for C8: picking up `"kunci"` (the old key) from the fresh
engine succeeds, and the count of `"old_key"` across all locations plus the
inventory stays at most one. -/
theorem pickup_conservation_witness :
    count_item ((apply_pick_ups initEngine ["kunci"]).getD initEngine)
      "old_key" ≤ 1 :=
  pickup_conservation.2.2.2.2
    ((apply_pick_ups initEngine ["kunci"]).getD initEngine) ["kunci"]
    (by rfl) "old_key"

end MysteryBot

